import Mathlib

/-!
Verification development for the Prism (Rainbow) resonant filter bank:
a shallow embedding of the filter engine (`filter.c` part) and of the
host-side resampling/multiplexing pipeline (`Audio.cpp`), with theorems
about the spec's claims.

Floating-point arithmetic is embedded as exact rational arithmetic (`ℚ`);
machine integers are `Nat`/`Int`.  External data (the `exp_4096` /
`log_4096` / `twopass_calibration` tables and the preset coefficient
catalog) and external collaborators (the Q / Rotation updates, the
sample-rate converter) are injected through an environment structure.
-/

namespace Prism

/-! ### Compile-time constants

`NUM_CHANNELS` is fixed at 6 by the spec.  The remaining sizes live in
the repository's `Rainbow.hpp`, which is not among the provided sources.
Modelled from the spec: "a bank of six independently tunable filters",
"per channel × scale × note, a 3-element recursive state vector", the
bpre stride `scale_num*63 = NUM_SCALENOTES*3`, and the upstream hardware
this module ports (20 filters, 11 scales per bank, 21 notes per scale,
20 banks, the last bank being the user scale).  The claims proved below
do not depend on the particular values beyond basic size facts. -/

def NUM_CHANNELS : Nat := 6

def NUM_FILTS : Nat := 20

def NUM_SCALES : Nat := 11

def NUM_SCALEBANKS : Nat := 20

def NUM_SCALENOTES : Nat := 21

def NUM_BANKNOTES : Nat := NUM_SCALES * NUM_SCALENOTES

/-- Modelled from the spec: the internal block size is a compile-time
constant (value in the missing header); the claims are independent of it. -/
def NUM_SAMPLES : Nat := 8

/-- Filter algorithm selector (`FilterTypes` in the source). -/
inductive FilterTypes
  | MAXQ
  | BPRE
  deriving DecidableEq

/-- Filter mode selector (`TWOPASS` vs single-pass dispatch in
`process_audio_block`). -/
inductive FilterModes
  | TWOPASS
  | ONEPASS
  deriving DecidableEq

/-- Symbolic coefficient-table pointer: `c_hiq` / `c_loq` / `bpretuning`
are pointers either into the user scale bank or into a preset's
`c_maxq` / `c_bpre_hi` / `c_bpre_lo` tables. -/
inductive CPtr
  | user
  | maxq (bank : Nat)
  | bpreHi (bank : Nat)
  | bpreLo (bank : Nat)
  deriving DecidableEq

/-- One entry of the read-only preset catalog (`scales.presets[b]`):
each table is a flat array of rationals addressed by the same offsets
the C code uses. -/
structure Preset where
  c_maxq : Nat → ℚ
  c_bpre_hi : Nat → ℚ
  c_bpre_lo : Nat → ℚ

/-- External data and collaborators of the filter engine.
`exp_4096`, `log_4096`, `twopass_calibration` are the extern lookup
tables; `presets` is the preset catalog; `qUpdate` / `morphUpdate` model
the out-of-scope `q->update()` and `rotation->update_morph()` calls
(Modelled from the spec: Q and Rotation are external collaborators whose
per-block updates are opaque functions of their previous values);
`INPUT_LED_CLIP_LEVEL` is the fixed input clip threshold whose value is
in the missing header. -/
structure Env where
  exp_4096 : Nat → ℚ
  log_4096 : Nat → ℚ
  twopass_calibration : Nat → ℚ
  presets : Nat → Preset
  qUpdate : (Nat → ℚ) → Nat → ℚ
  morphUpdate : (Nat → ℚ) → Nat → ℚ
  INPUT_LED_CLIP_LEVEL : ℤ

/-- The full mutable state visible to the filter engine: the `Filter`
object's members, the shared `IO` block, and the small per-channel value
arrays of the out-of-scope collaborators (Rotation, Q, Tuning, Levels,
Envelope).  Per-channel arrays are total functions on the channel index;
`buf` and `buf_a` are kept in the flat row-major layout
(`scale * NUM_FILTS * 3 + note * 3 + k`) because `process_scale_bank`
clears them through a flat `float *` alias. -/
structure S where
  -- IO block
  inp : Nat → Nat → ℤ
  out : Nat → Nat → ℚ
  channelLevel : Nat → ℚ
  FREQSCALE : ℚ
  INPUT_CLIP : Bool
  USER_SCALE_CHANGED : Bool
  USER_SCALE : Nat → ℚ
  CHANGED_BANK : Bool
  NEW_BANK : Nat
  LOCK_ON : Nat → Bool
  GLIDE_SWITCH : Bool
  -- Filter members
  note : Nat → Nat
  scale : Nat → Nat
  scale_bank : Nat → Nat
  old_scale_bank : Nat → Nat
  buf : Nat → Nat → ℚ
  buf_a : Nat → Nat → ℚ
  c_hiq : Nat → CPtr
  c_loq : Nat → CPtr
  bpretuning : Nat → CPtr
  user_scale_bank : Nat → ℚ
  qc : Nat → ℚ
  qval_a : Nat → ℚ
  qval_b : Nat → ℚ
  filter_out : Nat → Nat → ℚ
  filter_type : FilterTypes
  new_filter_type : FilterTypes
  filter_type_changed : Bool
  filter_mode : FilterModes
  -- Collaborator value arrays
  qval : Nat → ℚ
  freq_nudge : Nat → ℚ
  freq_shift : Nat → ℚ
  motion_morphpos : Nat → ℚ
  motion_fadeto_note : Nat → Nat
  motion_fadeto_scale : Nat → Nat
  channel_level : Nat → ℚ
  envout_preload_voct : Nat → ℚ
  envout_preload : Nat → ℚ

/-- Dereference a symbolic coefficient pointer at a flat offset. -/
def cderef (env : Env) (s : S) : CPtr → Nat → ℚ
  | CPtr.user, k => s.user_scale_bank k
  | CPtr.maxq b, k => (env.presets b).c_maxq k
  | CPtr.bpreHi b, k => (env.presets b).c_bpre_hi k
  | CPtr.bpreLo b, k => (env.presets b).c_bpre_lo k

/-- Flat index of history slot `(scale, note)`: the base of the
3-element state vector inside one channel's `buf` submatrix. -/
def flatIdx (sc n : Nat) : Nat := sc * (NUM_FILTS * 3) + n * 3

/-- Read the 3-element state vector at slot `(scale, note)`. -/
def readTriple (f : Nat → ℚ) (sc n : Nat) : ℚ × ℚ × ℚ :=
  (f (flatIdx sc n), f (flatIdx sc n + 1), f (flatIdx sc n + 2))

/-- Write the 3-element state vector at slot `(scale, note)`. -/
def writeTriple (f : Nat → ℚ) (sc n : Nat) (t : ℚ × ℚ × ℚ) : Nat → ℚ :=
  fun k =>
    if k = flatIdx sc n then t.1
    else if k = flatIdx sc n + 1 then t.2.1
    else if k = flatIdx sc n + 2 then t.2.2
    else f k

/-- Body of the history-clearing loop in `process_scale_bank`: the
iteration for index `j` writes `0` at flat offsets `j`, `j+1`, `j+2`
(`*(ff+j) = *(ff+j+1) = *(ff+j+2) = 0.0f`). -/
def clearStep (ff : Nat → ℚ) (j : Nat) : Nat → ℚ :=
  fun k => if k = j ∨ k = j + 1 ∨ k = j + 2 then 0 else ff k

/-- The history-clearing loop of `process_scale_bank`, running `n`
iterations (`for j in [0, NUM_SCALES*NUM_FILTS)` in the source). -/
def clearLoop (ff : Nat → ℚ) : Nat → Nat → ℚ
  | 0 => ff
  | n + 1 => clearStep (clearLoop ff n) n

/-- `Filter::process_bank_change`: on a bank-change event, set every
unlocked channel's `scale_bank` to the new bank. -/
def process_bank_change (s : S) : S :=
  if s.CHANGED_BANK then
    { s with scale_bank := fun i =>
        if i < NUM_CHANNELS ∧ s.LOCK_ON i = false then s.NEW_BANK else s.scale_bank i }
  else s

/-- `Filter::process_user_scale_change`: copy the externally supplied
coefficients into the user scale slot. -/
def process_user_scale_change (s : S) : S :=
  if s.USER_SCALE_CHANGED then
    { s with user_scale_bank := fun k =>
        if k < NUM_BANKNOTES then s.USER_SCALE k else s.user_scale_bank k }
  else s

/-- `Filter::change_filter_type`: record a pending algorithm change. -/
def change_filter_type (s : S) (newtype : FilterTypes) : S :=
  if s.new_filter_type ≠ newtype then
    { s with filter_type_changed := true, new_filter_type := newtype }
  else s

/-- Bank clamp of `process_scale_bank`: banks at or above
`NUM_SCALEBANKS` are clamped to the last valid index, except the
sentinel value `0xFF`. -/
def clampBank (b : Nat) : Nat :=
  if NUM_SCALEBANKS ≤ b ∧ b ≠ 255 then NUM_SCALEBANKS - 1 else b

/-- Scale clamp of `process_scale_bank`. -/
def clampScale (sc : Nat) : Nat :=
  if NUM_SCALES ≤ sc then NUM_SCALES - 1 else sc

/-- The per-channel invalidation trigger of `process_scale_bank`:
the (clamped) `scale_bank` differs from `old_scale_bank`, or the filter
type changed, or the user scale changed. -/
def bankTrigger (s : S) (i : Nat) : Bool :=
  decide (clampBank (s.scale_bank i) ≠ s.old_scale_bank i) ||
    s.filter_type_changed || s.USER_SCALE_CHANGED

/-- `Filter::process_scale_bank`.  For each channel: clamp the bank and
scale indices; when the invalidation trigger fires, record the new bank,
run the flat history-clearing loop over the channel's `buf` submatrix,
and re-resolve the coefficient-table pointers according to the active
filter type/mode.  The channel loop body only touches channel `i`'s
slots, so it is embedded pointwise over the channel index. -/
def process_scale_bank (s : S) : S :=
  let sb := fun i => if i < NUM_CHANNELS then clampBank (s.scale_bank i) else s.scale_bank i
  let trig := fun i => decide (i < NUM_CHANNELS) && bankTrigger s i
  { s with
    scale_bank := sb
    scale := fun i => if i < NUM_CHANNELS then clampScale (s.scale i) else s.scale i
    old_scale_bank := fun i => if trig i then sb i else s.old_scale_bank i
    buf := fun i => if trig i then clearLoop (s.buf i) (NUM_SCALES * NUM_FILTS) else s.buf i
    c_hiq := fun i =>
      if trig i then
        if s.filter_type = FilterTypes.MAXQ then
          if sb i = NUM_SCALEBANKS - 1 then CPtr.user else CPtr.maxq (sb i)
        else if s.filter_mode ≠ FilterModes.TWOPASS ∧ s.filter_type = FilterTypes.BPRE then
          CPtr.bpreHi (sb i)
        else s.c_hiq i
      else s.c_hiq i
    c_loq := fun i =>
      if trig i ∧ s.filter_type ≠ FilterTypes.MAXQ ∧
          s.filter_mode ≠ FilterModes.TWOPASS ∧ s.filter_type = FilterTypes.BPRE then
        CPtr.bpreLo (sb i)
      else s.c_loq i
    bpretuning := fun i =>
      if trig i ∧ s.filter_type ≠ FilterTypes.MAXQ ∧
          s.filter_mode ≠ FilterModes.TWOPASS ∧ s.filter_type = FilterTypes.BPRE then
        CPtr.maxq (sb i)
      else s.bpretuning i }

/-! ### Filter algorithms -/

/-- Truncating cast of a (nonnegative, in all uses) rational to a table
index, as the C `(uint32_t)` cast of a float does. -/
def ratIdx (x : ℚ) : Nat := (Rat.floor x).toNat

/-- The 20 kHz hard ceiling `1.30899581f` on the frequency coefficient. -/
def maxC1 : ℚ := 1.30899581

/-- The hard-limit step on the frequency coefficient
(`if (c1 > 1.30899581f) c1 = 1.30899581f`). -/
def clamp20k (c1 : ℚ) : ℚ := if c1 > maxC1 then maxC1 else c1

/-- The frequency coefficient as derived (and immediately clamped) by
both the two-pass and single-pass algorithms: a direct table lookup at
`scale_num * NUM_SCALENOTES + filter_num`, scaled by the channel's
tuning nudge and shift and the global frequency-scale factor. -/
def c1Lookup (env : Env) (s : S) (ch snum fnum : Nat) : ℚ :=
  clamp20k (cderef env s (s.c_hiq ch) (snum * NUM_SCALENOTES + fnum) *
    s.freq_nudge ch * s.freq_shift ch * s.FREQSCALE)

/-- The pole-radius coefficient `c0 = 1 - exp_4096[(q/1.4)+200] / (10/FREQSCALE)`. -/
def c0Lookup (env : Env) (s : S) (qv : ℚ) : ℚ :=
  1 - env.exp_4096 (ratIdx (qv / (14/10)) + 200) / (10 / s.FREQSCALE)

/-! Crossfade thresholds.  Modelled from the spec: the two fixed
thresholds and the ramp width live in the missing header; the spec fixes
only that a linear ramp of width `CROSSFADE_WIDTH` runs between the two
thresholds inside the Q-control domain `[0, 4095]`.  Values follow the
upstream hardware firmware this module ports. -/

def CROSSFADE_POINT : ℚ := 2730

def CROSSFADE_WIDTH : ℚ := 1800

def CROSSFADE_MIN : ℚ := CROSSFADE_POINT - CROSSFADE_WIDTH / 2

def CROSSFADE_MAX : ℚ := CROSSFADE_POINT + CROSSFADE_WIDTH / 2

/-- Two-pass crossfade ratio of the first pass as a function of the raw
Q control value (`filter_twopass`, CROSSFADE section). -/
def ratioA (qcv : ℚ) : ℚ :=
  if qcv < CROSSFADE_MIN then 1
  else if qcv > CROSSFADE_MAX then 0
  else 1 - (qcv - CROSSFADE_MIN) / CROSSFADE_WIDTH

/-- The fixed gain `43801543.68f` applied to the second pass's ratio. -/
def twopassGain : ℚ := 43801543.68

/-- First-pass Q value: `qval_a = min (qc * 2) 4095`. -/
def qvalACalc (qcv : ℚ) : ℚ :=
  let v := qcv * 2
  if v > 4095 then 4095 else v

/-- Second-pass Q value: `1000` below `3900`, then a steep ramp. -/
def qvalBCalc (qcv : ℚ) : ℚ :=
  if qcv < 3900 then 1000 else 1000 + (qcv - 3900) * 15

/-- Generic left-to-right sample loop: threads a filter state through a
block of input samples, collecting the per-sample outputs in order. -/
def runFold {σ : Type} (step : σ → ℤ → σ × ℚ) : List ℤ → σ → σ × List ℚ
  | [], st => (st, [])
  | x :: xs, st =>
    let r := step st x
    let rest := runFold step xs r.1
    (rest.1, r.2 :: rest.2)

/-- The coefficient set one two-pass channel derives per block:
`c0` pole radii for both passes, the (clamped) frequency coefficient,
the amplitude coefficients, and the two crossfade ratios. -/
structure TPCoef where
  c0a : ℚ
  c0 : ℚ
  c1 : ℚ
  c2a : ℚ
  c2 : ℚ
  rA : ℚ
  rB : ℚ

/-- Source-note coefficient derivation of `filter_twopass`: Q
adjustments, pole-radius lookups, clamped frequency coefficient,
crossfade ratios, amplitude compensation. -/
def twopassCoefs (env : Env) (s : S) (ch : Nat) : TPCoef :=
  let qcv := s.qval ch
  let qa := qvalACalc qcv
  let qb := qvalBCalc qcv
  let c0a := c0Lookup env s qa
  let c0 := c0Lookup env s qb
  let c1 := c1Lookup env s ch (s.scale ch) (s.note ch)
  let rA := ratioA qcv
  let rB := (1 - rA) * twopassGain / env.twopass_calibration (ratIdx (qb - 900))
  { c0a := c0a
    c0 := c0
    c1 := c1
    c2a := (3/1000 : ℚ) * c1 - (1/10 : ℚ) * c0a + 102/1000
    c2 := ((3/1000 : ℚ) * c1 - (1/10 : ℚ) * c0 + 102/1000) * rB
    rA := rA
    rB := rB }

/-- Morph-destination coefficient re-derivation of `filter_twopass`:
`c1` and the amplitude coefficients are recomputed for the destination
note; the Q-derived values are reused. -/
def twopassDestCoefs (env : Env) (s : S) (ch : Nat) (c : TPCoef) : TPCoef :=
  let c1d := c1Lookup env s ch (s.motion_fadeto_scale ch) (s.motion_fadeto_note ch)
  { c with
    c1 := c1d
    c2a := (3/1000 : ℚ) * c1d - (1/10 : ℚ) * c.c0a + 102/1000
    c2 := ((3/1000 : ℚ) * c1d - (1/10 : ℚ) * c.c0 + 102/1000) * c.rB }

/-- The two cascaded two-pole recurrences of the two-pass inner loop:
first pass on the `buf_a` triple, second pass (fed by the first pass's
output) on the `buf` triple, combined with the crossfade ratio and the
second pass phase-inverted.  State: `(buf_a triple, buf triple)`. -/
def twopassCore (c : TPCoef) (st : (ℚ × ℚ × ℚ) × (ℚ × ℚ × ℚ)) (x : ℤ) :
    ((ℚ × ℚ × ℚ) × (ℚ × ℚ × ℚ)) × ℚ :=
  let a := st.1
  let b := st.2
  let a2 := c.c0a * a.2.1 + c.c1 * a.1 - c.c2a * (x : ℚ)
  let a0 := a.1 - c.c1 * a2
  let outA := a2
  let b2 := c.c0 * b.2.1 + c.c1 * b.1 - c.c2 * outA
  let b0 := b.1 - c.c1 * b2
  let outB := b2
  (((a0, a2, a2), (b0, b2, b2)), c.rA * outA - outB)

/-- The input-clip test of the two-pass and bpre loops
(`*ptmp_i32 >= INPUT_LED_CLIP_LEVEL`, an integer comparison). -/
def clipLE (t : ℤ) : ℤ → Bool := fun x => decide (t ≤ x)

/-- The input-clip test of the single-pass loop, performed on the
float-converted sample (`tmp >= INPUT_LED_CLIP_LEVEL`). -/
def clipLEQ (t : ℤ) : ℤ → Bool := fun x => decide ((t : ℚ) ≤ (x : ℚ))

/-- One iteration of a clip-checking inner loop: the clip test on the
raw input sample (OR-accumulated into the flag), then the pure
recurrence `core` of the active algorithm. -/
def clipStep {σ : Type} (tst : ℤ → Bool) (core : σ → ℤ → σ × ℚ)
    (st : σ × Bool) (x : ℤ) : (σ × Bool) × ℚ :=
  let clip := st.2 || tst x
  let r := core st.1 x
  ((r.1, clip), r.2)

/-- One iteration of the two-pass inner loop for the source note:
clip check plus the cascaded recurrences.  (The morph-destination loop
runs `twopassCore` without the clip check, as in the source.) -/
def twopassStep (t : ℤ) (c : TPCoef) :
    ((((ℚ × ℚ × ℚ) × (ℚ × ℚ × ℚ)) × Bool) → ℤ →
      ((((ℚ × ℚ × ℚ) × (ℚ × ℚ × ℚ)) × Bool) × ℚ)) :=
  clipStep (clipLE t) (twopassCore c)

/-- Per-channel results of one algorithm run: the channel's updated
history submatrices, the source-note output block, the morph-destination
output block when the destination filter ran, the channel's contribution
to the input-clip flag, the preloaded v/oct value, and the `qc` /
`qval_a` / `qval_b` member values. -/
structure ChanRes where
  bufc : Nat → ℚ
  bufac : Nat → ℚ
  outSrc : List ℚ
  outDst : Option (List ℚ)
  clip : Bool
  voct : ℚ
  qcv : ℚ
  qa : ℚ
  qb : ℚ

/-- The block of input samples the loops read for channel `ch`. -/
def chInputs (s : S) (ch : Nat) : List ℤ :=
  (List.range NUM_SAMPLES).map (s.inp ch)

/-- One channel of `Filter::filter_twopass`: coefficient derivation,
the source-note sample loop (with clip checks), and — when the
channel's morph position is positive — the morph-destination sample loop
(no clip checks) with re-derived coefficients, reading the history the
source loop just updated, plus glissando v/oct blending. -/
def twopassChannel (env : Env) (s : S) (ch : Nat) : ChanRes :=
  let c := twopassCoefs env s ch
  let r := runFold (twopassStep env.INPUT_LED_CLIP_LEVEL c) (chInputs s ch)
    ((readTriple (s.buf_a ch) (s.scale ch) (s.note ch),
      readTriple (s.buf ch) (s.scale ch) (s.note ch)), false)
  let bufa1 := writeTriple (s.buf_a ch) (s.scale ch) (s.note ch) r.1.1.1
  let buf1 := writeTriple (s.buf ch) (s.scale ch) (s.note ch) r.1.1.2
  if s.motion_morphpos ch > 0 then
    let cd := twopassDestCoefs env s ch c
    let r2 := runFold (twopassCore cd) (chInputs s ch)
      (readTriple bufa1 (s.motion_fadeto_scale ch) (s.motion_fadeto_note ch),
        readTriple buf1 (s.motion_fadeto_scale ch) (s.motion_fadeto_note ch))
    let voct := if s.GLIDE_SWITCH then
        c.c1 * (1 - s.motion_morphpos ch) + cd.c1 * s.motion_morphpos ch
      else c.c1
    ⟨writeTriple buf1 (s.motion_fadeto_scale ch) (s.motion_fadeto_note ch) r2.1.2,
      writeTriple bufa1 (s.motion_fadeto_scale ch) (s.motion_fadeto_note ch) r2.1.1,
      r.2, some r2.2, r.1.2, voct, s.qval ch, qvalACalc (s.qval ch), qvalBCalc (s.qval ch)⟩
  else
    ⟨buf1, bufa1, r.2, none, r.1.2, c.c1, s.qval ch,
      qvalACalc (s.qval ch), qvalBCalc (s.qval ch)⟩

/-- Assemble per-channel algorithm results into the full state: the
per-channel member arrays, the 12-row `filter_out` working array
(rows `0..5` source, rows `6..11` morph destination), and the global
input-clip flag (`false` at entry, OR-accumulated over the channels). -/
def applyChanRes (res : Nat → ChanRes) (s : S) : S :=
  { s with
    buf := fun ch => if ch < NUM_CHANNELS then (res ch).bufc else s.buf ch
    buf_a := fun ch => if ch < NUM_CHANNELS then (res ch).bufac else s.buf_a ch
    qc := fun ch => if ch < NUM_CHANNELS then (res ch).qcv else s.qc ch
    qval_a := fun ch => if ch < NUM_CHANNELS then (res ch).qa else s.qval_a ch
    qval_b := fun ch => if ch < NUM_CHANNELS then (res ch).qb else s.qval_b ch
    envout_preload_voct := fun ch =>
      if ch < NUM_CHANNELS then (res ch).voct else s.envout_preload_voct ch
    filter_out := fun j i =>
      if i < NUM_SAMPLES then
        if j < NUM_CHANNELS then (res j).outSrc.getD i (s.filter_out j i)
        else if j < 2 * NUM_CHANNELS then
          match (res (j - NUM_CHANNELS)).outDst with
          | some l => l.getD i (s.filter_out j i)
          | none => s.filter_out j i
        else s.filter_out j i
      else s.filter_out j i
    INPUT_CLIP := (List.range NUM_CHANNELS).any (fun ch => (res ch).clip) }

/-- `Filter::filter_twopass`: all channels processed independently. -/
def filter_twopass (env : Env) (s : S) : S :=
  applyChanRes (twopassChannel env s) s

/-- The single two-pole recurrence of the single-pass inner loop. -/
def onepassCore (c0 c1 c2 : ℚ) (b : ℚ × ℚ × ℚ) (x : ℤ) : (ℚ × ℚ × ℚ) × ℚ :=
  let tmp : ℚ := (x : ℚ)
  let b2 := c0 * b.2.1 + c1 * b.1 - c2 * tmp
  let iir := b.1 - c1 * b2
  ((iir, b2, b2), b2)

/-- One iteration of the single-pass inner loop: float-domain clip check
plus the recurrence. -/
def onepassStep (t : ℤ) (c0 c1 c2 : ℚ) :
    (((ℚ × ℚ × ℚ) × Bool) → ℤ → (((ℚ × ℚ × ℚ) × Bool) × ℚ)) :=
  clipStep (clipLEQ t) (onepassCore c0 c1 c2)

/-- The `(c0, c1, c2)` derivation of one `filter_onepass` pass. -/
def onepassCoefs (env : Env) (s : S) (ch sn fn : Nat) : ℚ × ℚ × ℚ :=
  let c0 := c0Lookup env s (s.qval ch)
  let c1 := c1Lookup env s ch sn fn
  (c0, c1,
    ((3/1000 : ℚ) * c1 - (1/10 : ℚ) * c0 + 102/1000) *
      ((4096 - s.qval ch) / 1024 + 104/100))

/-- One pass (source or morph destination) of `filter_onepass` for one
channel: coefficient derivation and the sample loop at slot
`(sn, fn)` of the channel's `buf`.  Returns the updated channel buffer,
the clip flag, the output block, and the `c1` used (the v/oct value). -/
def onepassPass (env : Env) (s : S) (ch sn fn : Nat) (bufc : Nat → ℚ)
    (clip0 : Bool) : (Nat → ℚ) × Bool × List ℚ × ℚ :=
  let c := onepassCoefs env s ch sn fn
  let r := runFold (onepassStep env.INPUT_LED_CLIP_LEVEL c.1 c.2.1 c.2.2)
    (chInputs s ch) (readTriple bufc sn fn, clip0)
  (writeTriple bufc sn fn r.1.1, r.1.2, r.2, c.2.1)

/-- One channel of `Filter::filter_onepass`: the source pass always
runs; the morph-destination pass runs when the channel's morph position
is nonzero, reading the history updated by the source pass; with glide
enabled the v/oct output is interpolated by morph position. -/
def onepassChannel (env : Env) (s : S) (ch : Nat) : ChanRes :=
  let src := onepassPass env s ch (s.scale ch) (s.note ch) (s.buf ch) false
  if s.motion_morphpos ch ≠ 0 then
    let dst := onepassPass env s ch (s.motion_fadeto_scale ch)
      (s.motion_fadeto_note ch) src.1 src.2.1
    let voct := if s.GLIDE_SWITCH then
        src.2.2.2 * (1 - s.motion_morphpos ch) + dst.2.2.2 * s.motion_morphpos ch
      else src.2.2.2
    ⟨dst.1, s.buf_a ch, src.2.2.1, some dst.2.2.1, dst.2.1, voct,
      s.qc ch, s.qval_a ch, s.qval_b ch⟩
  else
    ⟨src.1, s.buf_a ch, src.2.2.1, none, src.2.1, src.2.2.2,
      s.qc ch, s.qval_a ch, s.qval_b ch⟩

/-- `Filter::filter_onepass`. -/
def filter_onepass (env : Env) (s : S) : S :=
  applyChanRes (onepassChannel env s) s

/-- Freq-nudge interpolation weight of the bpre algorithm: the channel's
nudge scalar snapped to `0` below `0.002` and to `1` above `0.998`. -/
def bpreVarF (nudge : ℚ) : ℚ :=
  let v := if nudge < 2/1000 then 0 else nudge
  if v > 998/1000 then 1 else v

/-- The note index the bpre coefficients are nudged towards:
`min (fnum + 1) NUM_FILTS`. -/
def bpreNudgeNum (fnum : Nat) : Nat :=
  if fnum + 1 > NUM_FILTS then NUM_FILTS else fnum + 1

/-- The blended `(c0, c1, c2)` coefficient triple of `filter_bpre`:
for each of the low-Q and high-Q tables, the triples of the current and
next note are blended by the nudge weight; the two results are then
blended by a logarithmic function of the Q control value. -/
def bpreCoefs (env : Env) (s : S) (ch snum fnum : Nat) : ℚ × ℚ × ℚ :=
  let varF := bpreVarF (s.freq_nudge ch)
  let invF := 1 - varF
  let nf := bpreNudgeNum fnum
  let lo := fun k => cderef env s (s.c_loq ch) (snum * 63 + nf * 3 + k) * varF +
    cderef env s (s.c_loq ch) (snum * 63 + fnum * 3 + k) * invF
  let hi := fun k => cderef env s (s.c_hiq ch) (snum * 63 + nf * 3 + k) * varF +
    cderef env s (s.c_hiq ch) (snum * 63 + fnum * 3 + k) * invF
  let varQ := if s.qval ch > 4065 then 1 else env.log_4096 (ratIdx (s.qval ch))
  let invQ := 1 - varQ
  (hi 0 * varQ + lo 0 * invQ, hi 1 * varQ + lo 1 * invQ, hi 2 * varQ + lo 2 * invQ)

/-- The two-zero/two-pole recurrence of the bpre inner loop on
`buf[0]`/`buf[1]`. -/
def bpreCore (c0 c1 c2 : ℚ) (b : ℚ × ℚ × ℚ) (x : ℤ) : (ℚ × ℚ × ℚ) × ℚ :=
  let tmp := b.1
  let b0 := b.2.1
  let iir := (x : ℚ) * c0 - c1 * tmp - c2 * b0
  let fir := -tmp + iir
  ((b0, iir, b.2.2), fir)

/-- One iteration of the bpre inner loop: clip check plus the
recurrence. -/
def bpreStep (t : ℤ) (c0 c1 c2 : ℚ) :
    (((ℚ × ℚ × ℚ) × Bool) → ℤ → (((ℚ × ℚ × ℚ) × Bool) × ℚ)) :=
  clipStep (clipLE t) (bpreCore c0 c1 c2)

/-- One pass (source or morph destination) of `filter_bpre` for one
channel. -/
def bprePass (env : Env) (s : S) (ch snum fnum : Nat) (bufc : Nat → ℚ)
    (clip0 : Bool) : (Nat → ℚ) × Bool × List ℚ × ℚ :=
  let c := bpreCoefs env s ch snum fnum
  let voct := cderef env s (s.bpretuning ch) (snum * NUM_SCALENOTES + fnum)
  let r := runFold (bpreStep env.INPUT_LED_CLIP_LEVEL c.1 c.2.1 c.2.2)
    (chInputs s ch) (readTriple bufc snum fnum, clip0)
  (writeTriple bufc snum fnum r.1.1, r.1.2, r.2, voct)

/-- One channel of `Filter::filter_bpre`. -/
def bpreChannel (env : Env) (s : S) (ch : Nat) : ChanRes :=
  let src := bprePass env s ch (s.scale ch) (s.note ch) (s.buf ch) false
  if s.motion_morphpos ch ≠ 0 then
    let dst := bprePass env s ch (s.motion_fadeto_scale ch)
      (s.motion_fadeto_note ch) src.1 src.2.1
    let voct := if s.GLIDE_SWITCH then
        src.2.2.2 * (1 - s.motion_morphpos ch) + dst.2.2.2 * s.motion_morphpos ch
      else src.2.2.2
    ⟨dst.1, s.buf_a ch, src.2.2.1, some dst.2.2.1, dst.2.1, voct,
      s.qc ch, s.qval_a ch, s.qval_b ch⟩
  else
    ⟨src.1, s.buf_a ch, src.2.2.1, none, src.2.1, src.2.2.2,
      s.qc ch, s.qval_a ch, s.qval_b ch⟩

/-- `Filter::filter_bpre`. -/
def filter_bpre (env : Env) (s : S) : S :=
  applyChanRes (bpreChannel env s) s

/-! ### Block processing and finalization -/

/-- Modelled from the spec: the fixed clip reference the per-channel
level signal is normalized by (`CLIP_LEVEL`, value in the missing
header). -/
def CLIP_LEVEL : ℚ := 2000

/-- The blend computed by the morphing section of
`process_audio_block`: the source output when the morph position is
exactly zero, otherwise the linear blend of source and destination. -/
def f_blended (m src dst : ℚ) : ℚ :=
  if m = 0 then src else src * (1 - m) + dst * m

/-- The morphing/finalization tail of `process_audio_block`: blend each
channel's source and morph-destination filter outputs by its morph
position, apply the channel level into `io->out`, and derive the
normalized level and rectified envelope preload signals from sample 0. -/
def finalize (s : S) : S :=
  let blended0 := fun j =>
    s.filter_out j 0 * (1 - s.motion_morphpos j) +
      s.filter_out (j + NUM_CHANNELS) 0 * s.motion_morphpos j
  { s with
    out := fun j i =>
      if j < NUM_CHANNELS ∧ i < NUM_SAMPLES then
        f_blended (s.motion_morphpos j) (s.filter_out j i)
          (s.filter_out (j + NUM_CHANNELS) i) * s.channel_level j
      else s.out j i
    channelLevel := fun j =>
      if j < NUM_CHANNELS then blended0 j * s.channel_level j / CLIP_LEVEL
      else s.channelLevel j
    envout_preload := fun j =>
      if j < NUM_CHANNELS then
        if blended0 j > 0 then blended0 j else -1 * blended0 j
      else s.envout_preload j }

/-- Everything `Filter::process_audio_block` does before the morphing
section: apply a pending filter-type change, resolve scale banks (and
invalidate history), update Q, dispatch the active algorithm over the
whole block, and update the morph positions. -/
def paPre (env : Env) (s : S) : S :=
  let s1 := if s.filter_type_changed then { s with filter_type := s.new_filter_type } else s
  let s2 := process_scale_bank s1
  let s3 := { s2 with qval := env.qUpdate s2.qval }
  let s4 :=
    if s3.filter_mode = FilterModes.TWOPASS then filter_twopass env s3
    else if s3.filter_type = FilterTypes.MAXQ then filter_onepass env s3
    else filter_bpre env s3
  { s4 with motion_morphpos := env.morphUpdate s4.motion_morphpos }

/-- `Filter::process_audio_block`: the pre-phase, the finalizer, and the
end-of-block clearing of the pending-change and user-scale flags. -/
def process_audio_block (env : Env) (s : S) : S :=
  { finalize (paPre env s) with filter_type_changed := false, USER_SCALE_CHANGED := false }

/-! ### Resampling/multiplexing pipeline (`Audio.cpp`) -/

/-- Modelled from the spec: the 12-bit fixed-point clamp bounds
(`MAX_12BIT` / `MIN_12BIT`, values in the missing header). -/
def MAX_12BIT : ℚ := 2047

/-- Lower 12-bit clamp bound. -/
def MIN_12BIT : ℚ := -2048

/-- The host-side `clamp(x, lo, hi)`. -/
def clampQ (x lo hi : ℚ) : ℚ := max lo (min x hi)

/-- Truncating `(int32_t)` cast of a rational. -/
def truncZ (x : ℚ) : ℤ := if x < 0 then -Rat.floor (-x) else Rat.floor x

/-- External collaborators of the pipeline: the three colored-noise
sources (as streams of raw samples), the input- and output-side
sample-rate converters (Modelled from the spec: the converter objects
are external; each maps the frames it is fed to converted frames), the
input-buffer capacity, and the engine's one-block entry point
(`main.process_audio`, Modelled from the spec: the Controller is an
external orchestrator; it maps the filled input block to the output
block). -/
structure AEnv where
  brownSeq : Nat → ℚ
  pinkSeq : Nat → ℚ
  whiteSeq : Nat → ℚ
  srcIn : List ℚ → Nat → ℚ
  srcOut : (Nat → ℚ) → List ℚ
  inputBufCapacity : Nat
  engine : (Nat → Nat → ℤ) → Nat → Nat → ℚ

/-- State of the `Audio` object: channel-count configuration, the
noise sources' positions, the per-lane bounded FIFOs, and the engine's
shared input/output block (`main.io->in` / `main.io->out`). -/
structure AudioState where
  inputChannels : Nat
  outputChannels : Nat
  inChannels : Nat
  outChannels : Nat
  noiseSelected : ℤ
  brownPos : Nat
  pinkPos : Nat
  whitePos : Nat
  nInputBuffer : Nat → List ℚ
  nOutputBuffer : Nat → List ℚ
  engineIn : Nat → Nat → ℤ
  engineOut : Nat → Nat → ℚ

/-- `Audio::generateNoise`: pick the selected noise source, consume its
next sample and rescale it; any selector outside `{0, 1, 2}` falls
through to the pink source.  Returns the sample and the advanced source
positions. -/
def generateNoise (env : AEnv) (sel : ℤ) (bp pp wp : Nat) : ℚ × Nat × Nat × Nat :=
  if sel = 0 then (env.brownSeq bp * 10 - 5, bp + 1, pp, wp)
  else if sel = 1 then (env.pinkSeq pp * 10 - 5, bp, pp + 1, wp)
  else if sel = 2 then (env.whiteSeq wp * 10 - 5, bp, pp, wp + 1)
  else (env.pinkSeq pp * 10 - 5, bp, pp + 1, wp)

/-- The channel-count normalization at the top of
`Audio::nChannelProcess`: 0/1/2 host inputs become 2 internal lanes,
3 become 3, anything else 6; 0/1/2 host outputs select 1/2/6 output
streams, anything else 1. -/
def normalizeChannels (s : AudioState) : AudioState :=
  { s with
    inChannels :=
      if s.inputChannels = 0 ∨ s.inputChannels = 1 ∨ s.inputChannels = 2 then 2
      else if s.inputChannels = 3 then 3 else 6
    outChannels :=
      if s.outputChannels = 0 then 1
      else if s.outputChannels = 1 then 2
      else if s.outputChannels = 2 then 6 else 1 }

/-- Loop body of `Audio::populateInputBuffer` for lane `i`: skip a full
buffer, otherwise push one frame — synthesized noise when no host input
is connected, host channel 0 for a mono input, host channel `i`
otherwise (all divided into ±1 range). -/
def pushLane (env : AEnv) (inputVolt : Nat → ℚ) (s : AudioState) (i : Nat) : AudioState :=
  if (s.nInputBuffer i).length < env.inputBufCapacity then
    if s.inputChannels = 0 then
      let r := generateNoise env s.noiseSelected s.brownPos s.pinkPos s.whitePos
      { s with
        brownPos := r.2.1, pinkPos := r.2.2.1, whitePos := r.2.2.2,
        nInputBuffer := fun k =>
          if k = i then s.nInputBuffer i ++ [r.1 / 5] else s.nInputBuffer k }
    else if s.inputChannels = 1 then
      { s with nInputBuffer := fun k =>
          if k = i then s.nInputBuffer i ++ [inputVolt 0 / 5] else s.nInputBuffer k }
    else
      { s with nInputBuffer := fun k =>
          if k = i then s.nInputBuffer i ++ [inputVolt i / 5] else s.nInputBuffer k }
  else s

/-- `Audio::populateInputBuffer`: one frame per active lane per call. -/
def populateInputBuffer (env : AEnv) (inputVolt : Nat → ℚ) (s : AudioState) : AudioState :=
  (List.range s.inChannels).foldl (pushLane env inputVolt) s

/-- Lane `i`'s converted, clamped internal-rate block: the lane's
buffered frames run through the input sample-rate converter, scaled to
the 12-bit domain, clamped and truncated to an integer sample. -/
def laneFrames (env : AEnv) (s : AudioState) (i : Nat) : Nat → ℤ :=
  fun j => truncZ (clampQ (env.srcIn (s.nInputBuffer i) j * MAX_12BIT) MIN_12BIT MAX_12BIT)

/-- The channel-mapping switch inside `Audio::resampleInput`: lane `i`
writes its converted block `v` into `main.io->in` — with 2 lanes into
channels `i`, `2+i`, `4+i`; with 3 lanes into channels `i` and `1+i`;
otherwise into channel `i` alone. -/
def laneWrite (inCh : Nat) (v : Nat → ℤ) (cur : Nat → Nat → ℤ) (i : Nat) :
    Nat → Nat → ℤ :=
  fun ch j =>
    if j < NUM_SAMPLES then
      if inCh = 2 then
        if ch = i ∨ ch = 2 + i ∨ ch = 4 + i then v j else cur ch j
      else if inCh = 3 then
        if ch = i ∨ ch = 1 + i then v j else cur ch j
      else
        if ch = i then v j else cur ch j
    else cur ch j

/-- `Audio::resampleInput`: for every lane with buffered data, convert
the buffered frames to one internal block, consume the buffer, and map
the block into the engine's input channels per the lane-count rule. -/
def resampleInput (env : AEnv) (s : AudioState) : AudioState :=
  (List.range NUM_CHANNELS).foldl
    (fun st i =>
      if st.nInputBuffer i = [] then st
      else
        { st with
          engineIn := laneWrite st.inChannels (laneFrames env st i) st.engineIn i
          nInputBuffer := fun k => if k = i then [] else st.nInputBuffer k })
    s

/-- `Audio::populateAndResampleOutputBuffer`: each engine output
channel's block is run through the output-side converter and appended to
that channel's output FIFO.  (The mono/stereo frame mix-down and the
converter's internals are external to the gating claims; the converter
is the injected `srcOut`.) -/
def populateAndResampleOutputBuffer (env : AEnv) (s : AudioState) : AudioState :=
  { s with nOutputBuffer := fun ch =>
      if ch < NUM_CHANNELS then s.nOutputBuffer ch ++ env.srcOut (s.engineOut ch)
      else s.nOutputBuffer ch }

/-- `Audio::processOutputBuffer`: when every active output lane's FIFO
is non-empty, shift one frame off each and emit it scaled to host
voltage; otherwise emit nothing. -/
def processOutputBuffer (s : AudioState) : AudioState × Option (List ℚ) :=
  let ready := (List.range s.outChannels).all (fun ch => !(s.nOutputBuffer ch).isEmpty)
  if ready then
    ({ s with nOutputBuffer := fun ch =>
        if ch < s.outChannels then (s.nOutputBuffer ch).tail else s.nOutputBuffer ch },
      some ((List.range s.outChannels).map (fun ch => (s.nOutputBuffer ch).headD 0 * 5)))
  else (s, none)

/-- `Audio::nChannelProcess`: normalize the channel counts, buffer the
newly arrived host input, run a full processing cycle (input conversion
→ engine block → output conversion) exactly when the lane-0 output FIFO
has been fully drained, then emit one host frame per active output lane
when available.  Returns the new state, whether the engine ran, and the
emitted frames (if any). -/
def nChannelProcess (env : AEnv) (inputVolt : Nat → ℚ) (s0 : AudioState) :
    AudioState × Bool × Option (List ℚ) :=
  let s1 := normalizeChannels s0
  let s2 := populateInputBuffer env inputVolt s1
  let p :=
    if s2.nOutputBuffer 0 = [] then
      let sa := resampleInput env s2
      let sb := { sa with engineOut := env.engine sa.engineIn }
      (populateAndResampleOutputBuffer env sb, true)
    else (s2, false)
  if p.1.nOutputBuffer 0 ≠ [] then
    let r := processOutputBuffer p.1
    (r.1, p.2, r.2)
  else (p.1, p.2, none)

/-! ### Concrete instances used by counterexamples and witnesses -/

/-- A concrete environment with simple table contents. -/
def env0 : Env :=
  { exp_4096 := fun _ => 1/2
    log_4096 := fun _ => 1/2
    twopass_calibration := fun _ => 1
    presets := fun _ => ⟨fun _ => 1/10, fun _ => 1/10, fun _ => 1/10⟩
    qUpdate := id
    morphUpdate := id
    INPUT_LED_CLIP_LEVEL := 2000 }

/-- A concrete quiescent filter state. -/
def S0 : S :=
  { inp := fun _ _ => 0
    out := fun _ _ => 0
    channelLevel := fun _ => 0
    FREQSCALE := 1
    INPUT_CLIP := false
    USER_SCALE_CHANGED := false
    USER_SCALE := fun _ => 0
    CHANGED_BANK := false
    NEW_BANK := 0
    LOCK_ON := fun _ => false
    GLIDE_SWITCH := false
    note := fun _ => 0
    scale := fun _ => 0
    scale_bank := fun _ => 0
    old_scale_bank := fun _ => 0
    buf := fun _ _ => 0
    buf_a := fun _ _ => 0
    c_hiq := fun _ => CPtr.maxq 0
    c_loq := fun _ => CPtr.bpreLo 0
    bpretuning := fun _ => CPtr.maxq 0
    user_scale_bank := fun _ => 0
    qc := fun _ => 0
    qval_a := fun _ => 0
    qval_b := fun _ => 0
    filter_out := fun _ _ => 0
    filter_type := FilterTypes.MAXQ
    new_filter_type := FilterTypes.MAXQ
    filter_type_changed := false
    filter_mode := FilterModes.ONEPASS
    qval := fun _ => 0
    freq_nudge := fun _ => 1
    freq_shift := fun _ => 1
    motion_morphpos := fun _ => 0
    motion_fadeto_note := fun _ => 0
    motion_fadeto_scale := fun _ => 0
    channel_level := fun _ => 1
    envout_preload_voct := fun _ => 0
    envout_preload := fun _ => 0 }

/-- State for the history-invalidation check: a bank-change event is
pending with every channel unlocked, and both history buffers hold a
nonzero value everywhere. -/
def sC1 : S :=
  { S0 with
    CHANGED_BANK := true
    NEW_BANK := 1
    buf := fun _ _ => 1
    buf_a := fun _ _ => 1 }

/-- State for the index-clamping check: channel 0 carries the `0xFF`
bank sentinel, an out-of-range note, and an out-of-range scale. -/
def sC4 : S :=
  { S0 with
    scale_bank := fun i => if i = 0 then 255 else 0
    note := fun _ => 77
    scale := fun _ => 30 }

/-- State for the pending-type-change witness. -/
def sC5 : S :=
  { S0 with
    filter_type_changed := true
    new_filter_type := FilterTypes.BPRE }

/-- State for the morph-blend witness: channel 0 mid-morph with distinct
source/destination outputs and a non-unit level. -/
def sC6 : S :=
  { S0 with
    filter_out := fun j i => if j = 0 ∧ i = 0 then 2 else if j = 6 ∧ i = 0 then 4 else 0
    motion_morphpos := fun j => if j = 0 then 1/2 else 0
    channel_level := fun _ => 3 }

/-- Environment whose bpre coefficient tables hold the value 2
everywhere — above the 20 kHz ceiling. -/
def envC7 : Env :=
  { env0 with presets := fun _ => ⟨fun _ => 2, fun _ => 2, fun _ => 2⟩ }

/-- State for the bpre clamp counterexample: bpre pointers resolved,
a mid-range nudge and Q, and unit history so the `c1` term reaches the
output. -/
def sC7 : S :=
  { S0 with
    c_hiq := fun _ => CPtr.bpreHi 0
    c_loq := fun _ => CPtr.bpreLo 0
    freq_nudge := fun _ => 1/2
    qval := fun _ => 1000
    buf := fun _ _ => 1
    filter_mode := FilterModes.ONEPASS
    filter_type := FilterTypes.BPRE }

/-- A concrete pipeline environment; the input converter passes the
first buffered frame through. -/
def envA0 : AEnv :=
  { brownSeq := fun _ => 1/4
    pinkSeq := fun _ => 1/2
    whiteSeq := fun _ => 3/4
    srcIn := fun l _ => l.headD 0
    srcOut := fun f => [f 0]
    inputBufCapacity := 4
    engine := fun _ _ _ => 0 }

/-- A concrete quiescent pipeline state. -/
def A0 : AudioState :=
  { inputChannels := 2
    outputChannels := 0
    inChannels := 2
    outChannels := 1
    noiseSelected := 1
    brownPos := 0
    pinkPos := 0
    whitePos := 0
    nInputBuffer := fun _ => []
    nOutputBuffer := fun _ => []
    engineIn := fun _ _ => 0
    engineOut := fun _ _ => 0 }

/-- Pipeline state for the 3-lane mapping check: three buffered lanes
carrying distinguishable signals over a stale engine input block. -/
def sA2 : AudioState :=
  { A0 with
    inputChannels := 3
    inChannels := 3
    nInputBuffer := fun i => if i < 3 then [((i : ℚ) + 1) / 2047] else []
    engineIn := fun _ _ => 99 }

/-- Pipeline state for the gating witness: every output FIFO holds two
frames, so the engine must not run and exactly one frame is popped. -/
def sA8 : AudioState :=
  { A0 with nOutputBuffer := fun _ => [1, 2] }

/-! ### Helper lemmas -/

theorem ratFloor_eq_floor (q : ℚ) : Rat.floor q = ⌊q⌋ := rfl

theorem process_scale_bank_filter_type (s : S) :
    (process_scale_bank s).filter_type = s.filter_type := rfl

theorem process_scale_bank_filter_type_changed (s : S) :
    (process_scale_bank s).filter_type_changed = s.filter_type_changed := rfl

theorem applyChanRes_filter_type (r : Nat → ChanRes) (s : S) :
    (applyChanRes r s).filter_type = s.filter_type := rfl

theorem dispatch_filter_type (env : Env) (s : S) :
    (if s.filter_mode = FilterModes.TWOPASS then filter_twopass env s
      else if s.filter_type = FilterTypes.MAXQ then filter_onepass env s
      else filter_bpre env s).filter_type = s.filter_type := by
  split_ifs <;> rfl

theorem paPre_filter_type (env : Env) (s : S) :
    (paPre env s).filter_type =
      if s.filter_type_changed then s.new_filter_type else s.filter_type := by
  simp only [paPre]
  split_ifs <;> rfl

theorem S_overwrite_filter_type (s : S) (a b : FilterTypes) :
    ({ { s with filter_type := a } with filter_type := b } : S) =
      { s with filter_type := b } := rfl

theorem S_update_filter_type_changed (s : S) (a : FilterTypes) :
    ({ s with filter_type := a } : S).filter_type_changed = s.filter_type_changed := rfl

/-! ### Claim theorems -/

/-- C10: for every noise color selector outside `{0, 1, 2}`,
`generateNoise` falls back to the pink source: it returns exactly the
same sample and advances exactly the same source state as selector 1. -/
theorem generateNoise_default_pink (env : AEnv) (sel : ℤ) (bp pp wp : Nat)
    (h0 : sel ≠ 0) (h1 : sel ≠ 1) (h2 : sel ≠ 2) :
    generateNoise env sel bp pp wp = generateNoise env 1 bp pp wp := by
  simp [generateNoise, h0, h1, h2]

/-- Witness for C10 at the out-of-enum selector 7. -/
theorem generateNoise_default_pink_witness :
    (7 : ℤ) ≠ 0 ∧ generateNoise envA0 7 0 0 0 = generateNoise envA0 1 0 0 0 :=
  ⟨by decide, generateNoise_default_pink envA0 7 0 0 0 (by decide) (by decide) (by decide)⟩

/-- C3: over the raw Q domain `[0, 4095]`, the two-pass crossfade ratio
is 1 at or below `CROSSFADE_MIN`, 0 at or above `CROSSFADE_MAX`, and
strictly decreasing strictly between the thresholds. -/
theorem ratioA_crossfade_profile (q1 q2 : ℚ) (hlo : 0 ≤ q1) (hhi : q1 ≤ 4095) :
    (q1 ≤ CROSSFADE_MIN → ratioA q1 = 1) ∧
    (CROSSFADE_MAX ≤ q1 → ratioA q1 = 0) ∧
    (CROSSFADE_MIN < q1 → q1 < q2 → q2 < CROSSFADE_MAX → ratioA q2 < ratioA q1) := by
  have hmin : CROSSFADE_MIN = 1830 := by
    norm_num [CROSSFADE_MIN, CROSSFADE_POINT, CROSSFADE_WIDTH]
  have hmax : CROSSFADE_MAX = 3630 := by
    norm_num [CROSSFADE_MAX, CROSSFADE_POINT, CROSSFADE_WIDTH]
  have hw : CROSSFADE_WIDTH = 1800 := by norm_num [CROSSFADE_WIDTH]
  refine ⟨fun h => ?_, fun h => ?_, fun ha hb hc => ?_⟩
  · unfold ratioA
    split_ifs with h1 h2
    · rfl
    · linarith
    · have : q1 = CROSSFADE_MIN := le_antisymm h (not_lt.mp h1)
      rw [this, hmin, hw]; norm_num
  · unfold ratioA
    split_ifs with h1 h2
    · linarith
    · rfl
    · have : q1 = CROSSFADE_MAX := le_antisymm (not_lt.mp h2) h
      rw [this, hmin, hmax, hw]; norm_num
  · have e1 : ratioA q1 = 1 - (q1 - CROSSFADE_MIN) / CROSSFADE_WIDTH := by
      unfold ratioA
      rw [if_neg (by simp only [not_lt]; linarith), if_neg (by simp only [not_lt]; linarith)]
    have e2 : ratioA q2 = 1 - (q2 - CROSSFADE_MIN) / CROSSFADE_WIDTH := by
      unfold ratioA
      rw [if_neg (by simp only [not_lt]; linarith), if_neg (by simp only [not_lt]; linarith)]
    rw [e1, e2, hmin, hw]
    linarith

/-- Witness for C3 at concrete points inside the domain. -/
theorem ratioA_crossfade_profile_witness :
    (0 : ℚ) ≤ 2000 ∧ (2000 : ℚ) ≤ 4095 ∧
    ((2000 : ℚ) ≤ CROSSFADE_MIN → ratioA 2000 = 1) ∧
    (CROSSFADE_MAX ≤ (2000 : ℚ) → ratioA 2000 = 0) ∧
    (CROSSFADE_MIN < (2000 : ℚ) → (2000 : ℚ) < 2001 → (2001 : ℚ) < CROSSFADE_MAX →
      ratioA 2001 < ratioA 2000) :=
  ⟨by norm_num, by norm_num, ratioA_crossfade_profile 2000 2001 (by norm_num) (by norm_num)⟩

/-- C7 (amended): in the two-pass and single-pass algorithms the derived
frequency coefficient — table lookup scaled by tuning nudge, tuning
shift and the global frequency-scale factor, then hard-limited — never
exceeds the 20 kHz ceiling, for every environment, state, channel and
note. -/
theorem c1_hard_limit_twopass_onepass (env : Env) (s : S) (ch snum fnum : Nat) :
    c1Lookup env s ch snum fnum ≤ maxC1 := by
  unfold c1Lookup clamp20k
  split_ifs with h
  · exact le_refl _
  · exact not_lt.mp h

/-- Counterexample for C7 as stated: the bpre algorithm applies no such
hard limit — with bpre coefficient tables holding 2, the derived `c1`
is 2 > 1.30899581, and that coefficient reaches the recursive update
(the first output sample of `filter_bpre` is `-5 = -(1 + c1 + c2)` for
unit history and zero input). -/
theorem bpre_c1_exceeds_limit :
    maxC1 < (bpreCoefs envC7 sC7 0 0 0).2.1 ∧
    (filter_bpre envC7 sC7).filter_out 0 0 = -5 := by
  have h1 : (bpreCoefs envC7 sC7 0 0 0).1 = 2 := by
    norm_num [bpreCoefs, bpreVarF, bpreNudgeNum, cderef, envC7, sC7, S0, env0, ratIdx,
      NUM_FILTS]
  have h2 : (bpreCoefs envC7 sC7 0 0 0).2.1 = 2 := by
    norm_num [bpreCoefs, bpreVarF, bpreNudgeNum, cderef, envC7, sC7, S0, env0, ratIdx,
      NUM_FILTS]
  have h3 : (bpreCoefs envC7 sC7 0 0 0).2.2 = 2 := by
    norm_num [bpreCoefs, bpreVarF, bpreNudgeNum, cderef, envC7, sC7, S0, env0, ratIdx,
      NUM_FILTS]
  refine ⟨by rw [h2]; norm_num [maxC1], ?_⟩
  have hout : (filter_bpre envC7 sC7).filter_out 0 0 =
      ((bpreChannel envC7 sC7 0).outSrc).getD 0 (sC7.filter_out 0 0) := rfl
  have htrip : readTriple (sC7.buf 0) 0 0 = (1, 1, 1) := rfl
  have hin : chInputs sC7 0 = [0, 0, 0, 0, 0, 0, 0, 0] := by decide
  have hsc : sC7.scale 0 = 0 := rfl
  have hnt : sC7.note 0 = 0 := rfl
  have hm : sC7.motion_morphpos 0 = 0 := rfl
  have hi0 : sC7.inp 0 0 = 0 := rfl
  rw [hout]
  simp only [bpreChannel, hm, ne_eq, not_true_eq_false, if_false, bprePass, hsc, hnt,
    h1, h2, h3, htrip, hin, runFold, bpreStep, clipStep, clipLE, bpreCore,
    List.getD_cons_zero, hi0]
  norm_num

/-- C4 (amended): after `process_scale_bank`, every channel's scale
index is in range and its bank index is in range unless it held the
`0xFF` sentinel, which is deliberately left unclamped; the note index is
not touched (and hence not clamped) by `process_scale_bank`. -/
theorem process_scale_bank_clamp_ranges (s : S) (i : Nat) (hi : i < NUM_CHANNELS) :
    (process_scale_bank s).scale i < NUM_SCALES ∧
    (s.scale_bank i ≠ 255 → (process_scale_bank s).scale_bank i < NUM_SCALEBANKS) ∧
    (s.scale_bank i = 255 → (process_scale_bank s).scale_bank i = 255) ∧
    (process_scale_bank s).note i = s.note i := by
  refine ⟨?_, fun hne => ?_, fun h255 => ?_, rfl⟩
  · show (if i < NUM_CHANNELS then clampScale (s.scale i) else s.scale i) < NUM_SCALES
    rw [if_pos hi]
    simp only [clampScale, NUM_SCALES]
    split_ifs with h <;> omega
  · show (if i < NUM_CHANNELS then clampBank (s.scale_bank i) else s.scale_bank i) <
      NUM_SCALEBANKS
    rw [if_pos hi]
    simp only [clampBank, NUM_SCALEBANKS]
    split_ifs with h
    · omega
    · rcases Nat.lt_or_ge (s.scale_bank i) 20 with h' | h'
      · exact h'
      · exact absurd ⟨h', hne⟩ h
  · show (if i < NUM_CHANNELS then clampBank (s.scale_bank i) else s.scale_bank i) = 255
    rw [if_pos hi]
    simp only [clampBank]
    split_ifs with h
    · exact absurd h255 h.2
    · exact h255

/-- Witness for C4's amended theorem at the sentinel state. -/
theorem process_scale_bank_clamp_ranges_witness :
    0 < NUM_CHANNELS ∧
    ((process_scale_bank sC4).scale 0 < NUM_SCALES ∧
      (sC4.scale_bank 0 ≠ 255 → (process_scale_bank sC4).scale_bank 0 < NUM_SCALEBANKS) ∧
      (sC4.scale_bank 0 = 255 → (process_scale_bank sC4).scale_bank 0 = 255) ∧
      (process_scale_bank sC4).note 0 = sC4.note 0) :=
  ⟨by decide, process_scale_bank_clamp_ranges sC4 0 (by decide)⟩

/-- Counterexample for C4 as stated: the `0xFF` bank sentinel survives
resolution unclamped (255 is not within `[0, NUM_SCALEBANKS-1]`), and an
out-of-range note index is not clamped at all. -/
theorem process_scale_bank_sentinel_unclamped :
    (process_scale_bank sC4).scale_bank 0 = 255 ∧
    ¬ (process_scale_bank sC4).scale_bank 0 < NUM_SCALEBANKS ∧
    (process_scale_bank sC4).note 0 = 77 ∧
    ¬ (process_scale_bank sC4).note 0 < NUM_FILTS := by decide

set_option maxRecDepth 10000 in
/-- C1 (code evaluated at the failing input): a bank-change event fires
with channel 0 unlocked and both history buffers full of 1s; after
`process_scale_bank` the invalidation trigger did fire (the low flat
offsets of `buf` are zeroed), yet the in-range second-pass history entry
at `(scale 3, note 14)` still holds 1, and the first-pass buffer `buf_a`
still holds 1 — the claimed full zeroing of both submatrices does not
happen: the clearing loop covers only flat offsets
`0 .. NUM_SCALES*NUM_FILTS+1` of the `3*NUM_SCALES*NUM_FILTS` floats and
never touches `buf_a`. -/
theorem process_scale_bank_partial_history_clear :
    sC1.CHANGED_BANK = true ∧
    sC1.LOCK_ON 0 = false ∧
    (process_bank_change sC1).scale_bank 0 = 1 ∧
    (process_bank_change sC1).old_scale_bank 0 = 0 ∧
    flatIdx 3 14 < NUM_SCALES * NUM_FILTS * 3 ∧
    (process_scale_bank (process_bank_change sC1)).buf 0 0 = 0 ∧
    (process_scale_bank (process_bank_change sC1)).buf 0 (flatIdx 3 14) = 1 ∧
    (process_scale_bank (process_bank_change sC1)).buf_a 0 0 = 1 := by decide

/-- C5: a requested algorithm change is only recorded by
`change_filter_type` (the active type is untouched); `process_audio_block`
applies the pending type at its top (its resulting active type is the
pending one exactly when a change was pending), clears the pending flag
by the end of the block, and the whole block result is independent of
the pre-block active type whenever a change is pending — so every sample
of the block is computed under the single new algorithm. -/
theorem filter_type_change_block_boundary (env : Env) (s : S) (t : FilterTypes) :
    (change_filter_type s t).filter_type = s.filter_type ∧
    (process_audio_block env s).filter_type =
      (if s.filter_type_changed then s.new_filter_type else s.filter_type) ∧
    (process_audio_block env s).filter_type_changed = false ∧
    (s.filter_type_changed = true → ∀ t1 t2 : FilterTypes,
      process_audio_block env { s with filter_type := t1 } =
        process_audio_block env { s with filter_type := t2 }) := by
  refine ⟨?_, ?_, rfl, ?_⟩
  · unfold change_filter_type
    split_ifs <;> rfl
  · exact paPre_filter_type env s
  · intro h t1 t2
    simp only [process_audio_block, paPre, S_update_filter_type_changed, h, if_true,
      S_overwrite_filter_type]

/-- Witness for C5 with a pending change to BPRE. -/
theorem filter_type_change_block_boundary_witness :
    (process_audio_block env0 sC5).filter_type = FilterTypes.BPRE ∧
    (process_audio_block env0 sC5).filter_type_changed = false ∧
    process_audio_block env0 { sC5 with filter_type := FilterTypes.MAXQ } =
      process_audio_block env0 { sC5 with filter_type := FilterTypes.BPRE } := by
  have h := filter_type_change_block_boundary env0 sC5 FilterTypes.MAXQ
  exact ⟨h.2.1.trans (by decide), h.2.2.1,
    h.2.2.2 (by decide) FilterTypes.MAXQ FilterTypes.BPRE⟩

/-- C6: the finalized output of every channel and sample is the linear
blend of the source-note output and the morph-destination output by the
channel's morph position, times the channel level — exactly the source
output times level at morph 0 and exactly the destination output times
level at morph 1; and `process_audio_block`'s output is produced by this
finalizer. -/
theorem finalize_morph_blend (s : S) (j i : Nat)
    (hj : j < NUM_CHANNELS) (hi : i < NUM_SAMPLES) :
    (finalize s).out j i =
      (s.filter_out j i * (1 - s.motion_morphpos j) +
        s.filter_out (j + NUM_CHANNELS) i * s.motion_morphpos j) * s.channel_level j ∧
    (s.motion_morphpos j = 0 →
      (finalize s).out j i = s.filter_out j i * s.channel_level j) ∧
    (s.motion_morphpos j = 1 →
      (finalize s).out j i = s.filter_out (j + NUM_CHANNELS) i * s.channel_level j) ∧
    (∀ env, (process_audio_block env s).out = (finalize (paPre env s)).out) := by
  have hout : (finalize s).out j i =
      f_blended (s.motion_morphpos j) (s.filter_out j i)
        (s.filter_out (j + NUM_CHANNELS) i) * s.channel_level j := by
    show (if j < NUM_CHANNELS ∧ i < NUM_SAMPLES then _ else _) = _
    rw [if_pos ⟨hj, hi⟩]
  refine ⟨?_, fun h => ?_, fun h => ?_, fun env => rfl⟩
  · rw [hout]
    unfold f_blended
    split_ifs with h
    · rw [h]; ring
    · ring
  · rw [hout]
    unfold f_blended
    rw [if_pos h]
  · rw [hout]
    unfold f_blended
    rw [if_neg (by rw [h]; norm_num), h]
    ring

/-- Witness for C6 at a concrete mid-morph state:
`(2 * (1 - 1/2) + 4 * (1/2)) * 3 = 9`. -/
theorem finalize_morph_blend_witness :
    (finalize sC6).out 0 0 = 9 := by
  have h := (finalize_morph_blend sC6 0 0 (by decide) (by decide)).1
  have ha : sC6.filter_out 0 0 = 2 := rfl
  have hb : sC6.filter_out (0 + NUM_CHANNELS) 0 = 4 := rfl
  have hc : sC6.motion_morphpos 0 = 1/2 := rfl
  have hd : sC6.channel_level 0 = 3 := rfl
  rw [h, ha, hb, hc, hd]
  norm_num

/-! ### Clip-flag lemmas (C9) -/

theorem runFold_clipStep_state {σ : Type} (tst : ℤ → Bool) (core : σ → ℤ → σ × ℚ)
    (l : List ℤ) (st : σ × Bool) :
    (runFold (clipStep tst core) l st).1.1 = (runFold core l st.1).1 := by
  induction l generalizing st with
  | nil => rfl
  | cons x xs ih =>
    simp only [runFold, clipStep]
    exact ih _

theorem runFold_clipStep_out {σ : Type} (tst : ℤ → Bool) (core : σ → ℤ → σ × ℚ)
    (l : List ℤ) (st : σ × Bool) :
    (runFold (clipStep tst core) l st).2 = (runFold core l st.1).2 := by
  induction l generalizing st with
  | nil => rfl
  | cons x xs ih =>
    simp only [runFold, clipStep]
    rw [ih]

theorem runFold_clipStep_clip {σ : Type} (tst : ℤ → Bool) (core : σ → ℤ → σ × ℚ)
    (l : List ℤ) (st : σ × Bool) :
    (runFold (clipStep tst core) l st).1.2 = (st.2 || l.any tst) := by
  induction l generalizing st with
  | nil => simp [runFold]
  | cons x xs ih =>
    simp only [runFold, clipStep, List.any_cons]
    rw [ih, Bool.or_assoc]

theorem twopassChannel_clip (env : Env) (s : S) (ch : Nat) :
    (twopassChannel env s ch).clip =
      (chInputs s ch).any (clipLE env.INPUT_LED_CLIP_LEVEL) := by
  unfold twopassChannel twopassStep
  dsimp only []
  rw [runFold_clipStep_clip]
  split_ifs <;> simp

theorem twopassChannel_indep (env : Env) (t : ℤ) (s : S) (ch : Nat) :
    (twopassChannel { env with INPUT_LED_CLIP_LEVEL := t } s ch).outSrc =
      (twopassChannel env s ch).outSrc ∧
    (twopassChannel { env with INPUT_LED_CLIP_LEVEL := t } s ch).outDst =
      (twopassChannel env s ch).outDst := by
  have hc : twopassCoefs { env with INPUT_LED_CLIP_LEVEL := t } s = twopassCoefs env s := by
    funext c; rfl
  have hd : twopassDestCoefs { env with INPUT_LED_CLIP_LEVEL := t } s =
      twopassDestCoefs env s := by
    funext a b; rfl
  unfold twopassChannel twopassStep
  dsimp only []
  rw [runFold_clipStep_out, runFold_clipStep_out, runFold_clipStep_state,
    runFold_clipStep_state, hc, hd]
  split_ifs <;> exact ⟨rfl, rfl⟩

theorem onepassPass_buf (env : Env) (s : S) (ch sn fn : Nat) (bufc : Nat → ℚ)
    (cl : Bool) :
    (onepassPass env s ch sn fn bufc cl).1 =
      writeTriple bufc sn fn
        (runFold (onepassCore (onepassCoefs env s ch sn fn).1
            (onepassCoefs env s ch sn fn).2.1 (onepassCoefs env s ch sn fn).2.2)
          (chInputs s ch) (readTriple bufc sn fn)).1 := by
  unfold onepassPass onepassStep
  dsimp only []
  rw [runFold_clipStep_state]

theorem onepassPass_out (env : Env) (s : S) (ch sn fn : Nat) (bufc : Nat → ℚ)
    (cl : Bool) :
    (onepassPass env s ch sn fn bufc cl).2.2.1 =
      (runFold (onepassCore (onepassCoefs env s ch sn fn).1
          (onepassCoefs env s ch sn fn).2.1 (onepassCoefs env s ch sn fn).2.2)
        (chInputs s ch) (readTriple bufc sn fn)).2 := by
  unfold onepassPass onepassStep
  dsimp only []
  rw [runFold_clipStep_out]

theorem onepassPass_clip (env : Env) (s : S) (ch sn fn : Nat) (bufc : Nat → ℚ)
    (cl : Bool) :
    (onepassPass env s ch sn fn bufc cl).2.1 =
      (cl || (chInputs s ch).any (clipLEQ env.INPUT_LED_CLIP_LEVEL)) := by
  unfold onepassPass onepassStep
  dsimp only []
  rw [runFold_clipStep_clip]

theorem onepassChannel_clip (env : Env) (s : S) (ch : Nat) :
    (onepassChannel env s ch).clip =
      (chInputs s ch).any (clipLEQ env.INPUT_LED_CLIP_LEVEL) := by
  unfold onepassChannel
  dsimp only []
  split_ifs <;> simp [onepassPass_clip]

theorem onepassChannel_indep (env : Env) (t : ℤ) (s : S) (ch : Nat) :
    (onepassChannel { env with INPUT_LED_CLIP_LEVEL := t } s ch).outSrc =
      (onepassChannel env s ch).outSrc ∧
    (onepassChannel { env with INPUT_LED_CLIP_LEVEL := t } s ch).outDst =
      (onepassChannel env s ch).outDst := by
  have hc : onepassCoefs { env with INPUT_LED_CLIP_LEVEL := t } s = onepassCoefs env s := by
    funext a b c; rfl
  unfold onepassChannel
  dsimp only []
  split_ifs <;> simp only [onepassPass_out, onepassPass_buf, hc] <;> simp

/-- C9: after a two-pass (or single-pass) block, the input-clip flag is
true if and only if some raw input sample of some channel in this block
reached the clip threshold — independently of the flag's previous
value — and the filter outputs are completely independent of the
threshold (flagged samples are filtered normally). -/
theorem input_clip_iff (env : Env) (s : S) :
    ((filter_twopass env s).INPUT_CLIP = true ↔
      ∃ ch < NUM_CHANNELS, ∃ i < NUM_SAMPLES, env.INPUT_LED_CLIP_LEVEL ≤ s.inp ch i) ∧
    ((filter_onepass env s).INPUT_CLIP = true ↔
      ∃ ch < NUM_CHANNELS, ∃ i < NUM_SAMPLES, env.INPUT_LED_CLIP_LEVEL ≤ s.inp ch i) ∧
    (∀ t, (filter_twopass { env with INPUT_LED_CLIP_LEVEL := t } s).filter_out =
      (filter_twopass env s).filter_out) ∧
    (∀ t, (filter_onepass { env with INPUT_LED_CLIP_LEVEL := t } s).filter_out =
      (filter_onepass env s).filter_out) := by
  refine ⟨?_, ?_, fun t => ?_, fun t => ?_⟩
  · show ((List.range NUM_CHANNELS).any fun ch => (twopassChannel env s ch).clip) = true ↔ _
    simp only [twopassChannel_clip, chInputs, clipLE, List.any_eq_true,
      List.mem_range, List.mem_map, Function.comp, decide_eq_true_eq,
      exists_exists_and_eq_and]
  · show ((List.range NUM_CHANNELS).any fun ch => (onepassChannel env s ch).clip) = true ↔ _
    simp only [onepassChannel_clip, chInputs, clipLEQ, List.any_eq_true,
      List.mem_range, List.mem_map, Function.comp, decide_eq_true_eq, Int.cast_le,
      exists_exists_and_eq_and]
  · funext j i
    show (applyChanRes (twopassChannel { env with INPUT_LED_CLIP_LEVEL := t } s) s).filter_out j i =
      (applyChanRes (twopassChannel env s) s).filter_out j i
    simp only [applyChanRes, (twopassChannel_indep env t s j).1,
      (twopassChannel_indep env t s j).2,
      (twopassChannel_indep env t s (j - NUM_CHANNELS)).1,
      (twopassChannel_indep env t s (j - NUM_CHANNELS)).2]
  · funext j i
    show (applyChanRes (onepassChannel { env with INPUT_LED_CLIP_LEVEL := t } s) s).filter_out j i =
      (applyChanRes (onepassChannel env s) s).filter_out j i
    simp only [applyChanRes, (onepassChannel_indep env t s j).1,
      (onepassChannel_indep env t s j).2,
      (onepassChannel_indep env t s (j - NUM_CHANNELS)).1,
      (onepassChannel_indep env t s (j - NUM_CHANNELS)).2]

/-! ### Channel-count mapping (C2) -/

/-- Counterexample for C2 as stated: with 3 buffered input lanes
carrying the distinct signals 1, 2, 3, internal channel 4 still carries
the stale previous value 99 after `resampleInput` — it is written by no
lane, so the six internal channels are not lane-mirrored pairs (lane `i`
writes channels `i` and `i+1`, later lanes overwriting the overlap). -/
theorem resample_three_lane_gap :
    laneFrames envA0 sA2 0 0 = 1 ∧
    laneFrames envA0 sA2 1 0 = 2 ∧
    laneFrames envA0 sA2 2 0 = 3 ∧
    (resampleInput envA0 sA2).engineIn 4 0 = 99 ∧
    (resampleInput envA0 sA2).engineIn 4 0 ≠ laneFrames envA0 sA2 0 0 ∧
    (resampleInput envA0 sA2).engineIn 4 0 ≠ laneFrames envA0 sA2 1 0 ∧
    (resampleInput envA0 sA2).engineIn 4 0 ≠ laneFrames envA0 sA2 2 0 := by
  have hf : ∀ i < 3, laneFrames envA0 sA2 i 0 = (i : ℤ) + 1 := by
    intro i hi
    unfold laneFrames clampQ truncZ
    have hb : sA2.nInputBuffer i = [((i : ℚ) + 1) / 2047] := by
      show (if i < 3 then _ else _) = _
      rw [if_pos hi]
    simp only [hb, envA0, List.headD_cons, MAX_12BIT, MIN_12BIT]
    interval_cases i <;> norm_num [ratFloor_eq_floor]
  have h0 := hf 0 (by norm_num)
  have h1 := hf 1 (by norm_num)
  have h2 := hf 2 (by norm_num)
  norm_num at h0 h1 h2
  have hmain : (resampleInput envA0 sA2).engineIn 4 0 = 99 := by
    have hr : List.range NUM_CHANNELS = [0, 1, 2, 3, 4, 5] := rfl
    unfold resampleInput
    rw [hr]
    norm_num [sA2, A0, laneWrite, NUM_SAMPLES]
  refine ⟨h0, h1, h2, hmain, ?_, ?_, ?_⟩ <;> rw [hmain] <;> omega

/-- C2 (amended): the channel-count normalization sends 1 host channel
to 2 internal lanes; a mono input pushes the identical sample into both
lanes (equal lane buffers stay equal); with 2 equal lanes the converted
signal is broadcast to all 6 internal channels; with 3 lanes, lanes
0, 1, 2 land on channels 0, 1, 2, lane 2 also lands on channel 3, and
channels 4 and 5 keep their previous contents (each lane `i` writes
channels `i` and `i+1`, later lanes overwriting the overlap). -/
theorem resample_lane_mapping (env : AEnv) (v : Nat → ℚ) (s : AudioState) :
    (s.inputChannels = 1 → (normalizeChannels s).inChannels = 2) ∧
    (s.inputChannels = 1 → s.nInputBuffer 0 = s.nInputBuffer 1 → s.inChannels = 2 →
      (populateInputBuffer env v s).nInputBuffer 0 =
        (populateInputBuffer env v s).nInputBuffer 1) ∧
    (s.inChannels = 2 → s.nInputBuffer 0 ≠ [] → s.nInputBuffer 0 = s.nInputBuffer 1 →
      (∀ i, 2 ≤ i → s.nInputBuffer i = []) →
      ∀ ch j, ch < 6 → j < NUM_SAMPLES →
        (resampleInput env s).engineIn ch j = laneFrames env s 0 j) ∧
    (s.inChannels = 3 → (∀ i, i < 3 → s.nInputBuffer i ≠ []) →
      (∀ i, 3 ≤ i → s.nInputBuffer i = []) → ∀ j, j < NUM_SAMPLES →
      (resampleInput env s).engineIn 0 j = laneFrames env s 0 j ∧
      (resampleInput env s).engineIn 1 j = laneFrames env s 1 j ∧
      (resampleInput env s).engineIn 2 j = laneFrames env s 2 j ∧
      (resampleInput env s).engineIn 3 j = laneFrames env s 2 j ∧
      (resampleInput env s).engineIn 4 j = s.engineIn 4 j ∧
      (resampleInput env s).engineIn 5 j = s.engineIn 5 j) := by
  refine ⟨fun h => ?_, fun h heq hin => ?_, fun hin hne heq hrest => ?_,
    fun hin hne hrest => ?_⟩
  · simp [normalizeChannels, h]
  · unfold populateInputBuffer
    rw [hin, show List.range 2 = [0, 1] from rfl]
    simp only [List.foldl]
    by_cases hfull : (s.nInputBuffer 1).length < env.inputBufCapacity
    · simp [pushLane, h, heq, hfull]
    · simp [pushLane, h, heq, hfull]
  · have h2 : s.nInputBuffer 1 ≠ [] := heq ▸ hne
    have e2 : s.nInputBuffer 2 = [] := hrest 2 (by norm_num)
    have e3 : s.nInputBuffer 3 = [] := hrest 3 (by norm_num)
    have e4 : s.nInputBuffer 4 = [] := hrest 4 (by norm_num)
    have e5 : s.nInputBuffer 5 = [] := hrest 5 (by norm_num)
    intro ch j hch hj
    unfold resampleInput
    rw [show List.range NUM_CHANNELS = [0, 1, 2, 3, 4, 5] from rfl]
    simp only [List.foldl]
    interval_cases ch <;>
      simp [laneWrite, laneFrames, hin, hne, h2, e2, e3, e4, e5, hj, heq]
  · have h0 : s.nInputBuffer 0 ≠ [] := hne 0 (by norm_num)
    have h1 : s.nInputBuffer 1 ≠ [] := hne 1 (by norm_num)
    have h2 : s.nInputBuffer 2 ≠ [] := hne 2 (by norm_num)
    have e3 : s.nInputBuffer 3 = [] := hrest 3 (by norm_num)
    have e4 : s.nInputBuffer 4 = [] := hrest 4 (by norm_num)
    have e5 : s.nInputBuffer 5 = [] := hrest 5 (by norm_num)
    intro j hj
    unfold resampleInput
    rw [show List.range NUM_CHANNELS = [0, 1, 2, 3, 4, 5] from rfl]
    simp only [List.foldl]
    refine ⟨?_, ?_, ?_, ?_, ?_, ?_⟩ <;>
      simp [laneWrite, laneFrames, h0, h1, h2, e3, e4, e5, hin, hj]

/-- Witness for C2's amended theorem: the concrete 3-lane state, where
channel 3 carries lane 2's signal and channel 4 keeps its old value. -/
theorem resample_lane_mapping_witness :
    (resampleInput envA0 sA2).engineIn 3 0 = laneFrames envA0 sA2 2 0 ∧
    (resampleInput envA0 sA2).engineIn 4 0 = sA2.engineIn 4 0 := by
  have h := (resample_lane_mapping envA0 (fun _ => 0) sA2).2.2.2 rfl
    (by intro i hi; show (if i < 3 then _ else _) ≠ []; rw [if_pos hi]; simp)
    (by intro i hi; show (if i < 3 then _ else _) = []; rw [if_neg (by omega)])
    0 (by norm_num [NUM_SAMPLES])
  exact ⟨h.2.2.2.1, h.2.2.2.2.1⟩

/-! ### Pipeline gating (C8) -/

theorem pushLane_preserves (env : AEnv) (v : Nat → ℚ) (s : AudioState) (i : Nat) :
    (pushLane env v s i).nOutputBuffer = s.nOutputBuffer ∧
    (pushLane env v s i).engineIn = s.engineIn ∧
    (pushLane env v s i).engineOut = s.engineOut ∧
    (pushLane env v s i).outChannels = s.outChannels := by
  unfold pushLane
  split_ifs <;> exact ⟨rfl, rfl, rfl, rfl⟩

theorem foldl_pushLane_preserves (env : AEnv) (v : Nat → ℚ) (l : List Nat)
    (s : AudioState) :
    ((l.foldl (pushLane env v) s).nOutputBuffer = s.nOutputBuffer ∧
      (l.foldl (pushLane env v) s).engineIn = s.engineIn ∧
      (l.foldl (pushLane env v) s).engineOut = s.engineOut ∧
      (l.foldl (pushLane env v) s).outChannels = s.outChannels) := by
  induction l generalizing s with
  | nil => exact ⟨rfl, rfl, rfl, rfl⟩
  | cons i tl ih =>
    simp only [List.foldl]
    obtain ⟨a, b, c, d⟩ := pushLane_preserves env v s i
    obtain ⟨a2, b2, c2, d2⟩ := ih (pushLane env v s i)
    exact ⟨a2.trans a, b2.trans b, c2.trans c, d2.trans d⟩

theorem populateInputBuffer_preserves (env : AEnv) (v : Nat → ℚ) (s : AudioState) :
    ((populateInputBuffer env v s).nOutputBuffer = s.nOutputBuffer ∧
      (populateInputBuffer env v s).engineIn = s.engineIn ∧
      (populateInputBuffer env v s).engineOut = s.engineOut ∧
      (populateInputBuffer env v s).outChannels = s.outChannels) :=
  foldl_pushLane_preserves env v _ s

/-- C8: the engine's one-block processing cycle runs exactly when the
lane-0 output FIFO is empty at the gate.  When it is non-empty, the call
only buffers newly arrived input (the engine's input and output blocks
are untouched), and then: if every active output lane has data, exactly
one frame is popped per active lane (inactive lanes untouched) and
frames are emitted; if any active lane is empty, no buffer changes and
nothing is emitted this tick. -/
theorem nChannelProcess_gating (env : AEnv) (v : Nat → ℚ) (s : AudioState) :
    ((nChannelProcess env v s).2.1 = true ↔ s.nOutputBuffer 0 = []) ∧
    (s.nOutputBuffer 0 ≠ [] →
      (nChannelProcess env v s).1.engineIn = s.engineIn ∧
      (nChannelProcess env v s).1.engineOut = s.engineOut ∧
      (nChannelProcess env v s).1.nInputBuffer =
        (populateInputBuffer env v (normalizeChannels s)).nInputBuffer ∧
      ((∀ ch, ch < (normalizeChannels s).outChannels → s.nOutputBuffer ch ≠ []) →
        (∀ ch, ch < (normalizeChannels s).outChannels →
          ((nChannelProcess env v s).1.nOutputBuffer ch).length =
            (s.nOutputBuffer ch).length - 1) ∧
        (∀ ch, (normalizeChannels s).outChannels ≤ ch →
          (nChannelProcess env v s).1.nOutputBuffer ch = s.nOutputBuffer ch) ∧
        (nChannelProcess env v s).2.2 ≠ none) ∧
      ((∃ ch, ch < (normalizeChannels s).outChannels ∧ s.nOutputBuffer ch = []) →
        (nChannelProcess env v s).1.nOutputBuffer = s.nOutputBuffer ∧
        (nChannelProcess env v s).2.2 = none)) := by
  obtain ⟨hOB, hEI, hEO, hOC⟩ :=
    populateInputBuffer_preserves env v (normalizeChannels s)
  have nOB : (normalizeChannels s).nOutputBuffer = s.nOutputBuffer := rfl
  have nEI : (normalizeChannels s).engineIn = s.engineIn := rfl
  have nEO : (normalizeChannels s).engineOut = s.engineOut := rfl
  have hob : (populateInputBuffer env v (normalizeChannels s)).nOutputBuffer =
      s.nOutputBuffer := hOB.trans nOB
  have hei : (populateInputBuffer env v (normalizeChannels s)).engineIn =
      s.engineIn := hEI.trans nEI
  have heo : (populateInputBuffer env v (normalizeChannels s)).engineOut =
      s.engineOut := hEO.trans nEO
  by_cases h0 : s.nOutputBuffer 0 = []
  · constructor
    · unfold nChannelProcess
      dsimp only []
      rw [congrFun hob 0, if_pos h0]
      split_ifs <;> simp [h0]
    · intro hne
      exact absurd h0 hne
  · have hrun : nChannelProcess env v s =
        ((processOutputBuffer (populateInputBuffer env v (normalizeChannels s))).1,
          false,
          (processOutputBuffer (populateInputBuffer env v (normalizeChannels s))).2) := by
      unfold nChannelProcess
      dsimp only []
      rw [congrFun hob 0, if_neg h0]
      rw [if_pos]
      exact fun hc => h0 (by rw [← congrFun hob 0]; exact hc)
    have hready_iff :
        ((List.range (populateInputBuffer env v (normalizeChannels s)).outChannels).all
          fun ch => !((populateInputBuffer env v (normalizeChannels s)).nOutputBuffer
            ch).isEmpty) = true ↔
        (∀ ch, ch < (normalizeChannels s).outChannels → s.nOutputBuffer ch ≠ []) := by
      rw [hOC]
      simp [List.all_eq_true, List.mem_range, hob]
    rw [hrun]
    refine ⟨by simp [h0], fun hne => ⟨?_, ?_, ?_, fun hall => ?_, fun hex => ?_⟩⟩
    · show (processOutputBuffer _).1.engineIn = s.engineIn
      unfold processOutputBuffer
      dsimp only []
      split_ifs <;> exact hei
    · show (processOutputBuffer _).1.engineOut = s.engineOut
      unfold processOutputBuffer
      dsimp only []
      split_ifs <;> exact heo
    · show (processOutputBuffer _).1.nInputBuffer = _
      unfold processOutputBuffer
      dsimp only []
      split_ifs <;> rfl
    · have hready := hready_iff.mpr hall
      unfold processOutputBuffer
      dsimp only []
      rw [if_pos hready]
      refine ⟨fun ch hch => ?_, fun ch hch => ?_, by simp⟩
      · show (if ch < (populateInputBuffer env v (normalizeChannels s)).outChannels
            then ((populateInputBuffer env v (normalizeChannels s)).nOutputBuffer ch).tail
            else (populateInputBuffer env v (normalizeChannels s)).nOutputBuffer ch).length = _
        rw [if_pos (by rw [hOC]; exact hch), congrFun hob ch, List.length_tail]
      · show (if ch < (populateInputBuffer env v (normalizeChannels s)).outChannels
            then ((populateInputBuffer env v (normalizeChannels s)).nOutputBuffer ch).tail
            else (populateInputBuffer env v (normalizeChannels s)).nOutputBuffer ch) = _
        rw [if_neg (by rw [hOC]; omega), congrFun hob ch]
    · have hready : ¬ ((List.range
          (populateInputBuffer env v (normalizeChannels s)).outChannels).all
            fun ch => !((populateInputBuffer env v (normalizeChannels s)).nOutputBuffer
              ch).isEmpty) = true := by
        rw [hready_iff]
        push_neg
        obtain ⟨ch, hlt, hch⟩ := hex
        exact ⟨ch, hlt, hch⟩
      unfold processOutputBuffer
      dsimp only []
      rw [if_neg hready]
      exact ⟨hob, rfl⟩

/-- Witness for C8: with every output FIFO holding two frames, the
engine does not run and exactly one frame is popped from the single
active lane. -/
theorem nChannelProcess_gating_witness :
    (nChannelProcess envA0 (fun _ => 0) sA8).2.1 = false ∧
    ((nChannelProcess envA0 (fun _ => 0) sA8).1.nOutputBuffer 0).length = 1 := by
  have h := nChannelProcess_gating envA0 (fun _ => 0) sA8
  have hne : sA8.nOutputBuffer 0 ≠ [] := by simp [sA8, A0]
  constructor
  · have := h.1
    rcases hb : (nChannelProcess envA0 (fun _ => 0) sA8).2.1 with _ | _
    · rfl
    · exact absurd (this.mp hb) hne
  · have hp := ((h.2 hne).2.2.2.1 ?_).1 0 ?_
    · rw [hp]
      rfl
    · intro ch hch
      have : ch = 0 := by
        have : (normalizeChannels sA8).outChannels = 1 := rfl
        omega
      rw [this]
      exact hne
    · show 0 < (normalizeChannels sA8).outChannels
      decide

end Prism
